import Mathlib

/-!
# Verification of the kvmtool run command (`kvm-run.c`)

A shallow embedding of `kvm-run.c`.  C strings are lists of characters
(the NUL terminator is implicit: a `CStr` is the content before the NUL).
Side-effecting calls are recorded as events in a trace; external fallible
collaborators (`disk_image__open`, `kvm__load_kernel`, `kvm_cpu__init`,
`pthread_create`, `pthread_join`, `kvm_cpu__start`) are oracles supplied
through an environment record.
-/

namespace KvmRun

set_option maxHeartbeats 1000000

abbrev CStr := List Char

/-- C `strlcat(dst, src, size)` acting on the string contents: if `dst`
already fills the buffer nothing is appended, otherwise `src` is appended
truncated so that content plus NUL fits in `size` bytes. -/
def strlcat (dst src : CStr) (size : Nat) : CStr :=
  if size ≤ dst.length then dst
  else dst ++ src.take (size - 1 - dst.length)

/-- `n` occurs at the start of `h` (character-by-character comparison). -/
def leadsWith : CStr → CStr → Bool
  | [], _ => true
  | _ :: _, [] => false
  | a :: n, b :: h => a == b && leadsWith n h

/-- C `strstr(h, n) != NULL`: the string `n` occurs somewhere inside `h`. -/
def occursIn (n : CStr) : CStr → Bool
  | [] => leadsWith n []
  | c :: h => leadsWith n (c :: h) || occursIn n h

/-- `sizeof(real_cmdline)`: the fixed 2048-byte buffer, `kvm-run.c:163`. -/
def cmdlineCap : Nat := 2048

/-- The baseline prefix `strcpy`ed into `real_cmdline`, `kvm-run.c:234`. -/
def baselineCmdline : CStr := "notsc nolapic noacpi pci=conf1 console=ttyS0 ".data

/-- The default root-device arguments, `kvm-run.c:236`. -/
def defaultRootArgs : CStr := "root=/dev/vda rw ".data

/-- The needle of the `strstr` test at `kvm-run.c:235`. -/
def rootTok : CStr := "root=".data

/-- Composition of `real_cmdline` from the caller-supplied `kernel_cmdline`
(`NULL` modelled as `none`), `kvm-run.c:234-243`.  The explicit NUL store at
line 242 is a no-op on the content model because `strlcat` already bounds
the content below the buffer size. -/
def composeCmdline (kernel_cmdline : Option CStr) : CStr :=
  let buf := baselineCmdline
  let buf :=
    if (match kernel_cmdline with
        | none => true
        | some s => !occursIn rootTok s) then
      strlcat buf defaultRootArgs cmdlineCap
    else buf
  match kernel_cmdline with
  | none => buf
  | some s => strlcat buf s cmdlineCap

/-! ### The run model: constants, events, environment -/

/-- `MB_SHIFT`, `kvm-run.c:36`. -/
def MB_SHIFT : Nat := 20

/-- `MIN_RAM_SIZE_MB`, `kvm-run.c:37`. -/
def MIN_RAM_SIZE_MB : Nat := 64

/-- `MIN_RAM_SIZE_BYTE`, `kvm-run.c:38`. -/
def MIN_RAM_SIZE_BYTE : Nat := MIN_RAM_SIZE_MB <<< MB_SHIFT

/-- `KVM_NR_CPUS`, `kvm-run.c:40`. -/
def KVM_NR_CPUS : Int := 255

/-- `KVM_EXIT_UNKNOWN` from the KVM userspace API. -/
def KVM_EXIT_UNKNOWN : Nat := 0

/-- Initial value of the `ram_size` global (`static u64 ram_size`,
`kvm-run.c:57`): the memory size in MiB used when `--mem` is not given. -/
def ram_size : Nat := MIN_RAM_SIZE_MB

/-- One observable call made by a vCPU thread (`kvm_cpu_thread`). -/
inductive ThreadEvent where
  | printExitReason (reason : Nat)
  | printHwCode (hw : Nat)
  | diskCloseT
  | showRegisters
  | showCode
  | showPageTables
  | cpuDelete
deriving DecidableEq, Repr

/-- The outcome of `kvm_cpu__start` for one vCPU: `halted` when it returns 0
(clean halt), `panic reason hw` when it returns non-zero with the recorded
`kvm_run->exit_reason` and `kvm_run->hw.hardware_exit_reason`. -/
inductive CpuRun where
  | halted
  | panic (reason : Nat) (hw : Nat)
deriving DecidableEq, Repr

/-- `kvm_cpu_thread`, `kvm-run.c:111-137`: the observable calls it makes and
the value it returns (`(void *)0` on halt, `(void *)1` on panic). -/
def kvm_cpu_thread : CpuRun → List ThreadEvent × Nat
  | .halted => ([.cpuDelete], 0)
  | .panic reason hw =>
      ([ThreadEvent.printExitReason reason] ++
         (if reason = KVM_EXIT_UNKNOWN then [ThreadEvent.printHwCode hw] else []) ++
         [.diskCloseT, .showRegisters, .showCode, .showPageTables, .cpuDelete],
       1)

/-- `handle_sigalrm`, `kvm-run.c:51-55`: the targets of each periodic
timer tick. -/
inductive InjectTarget where
  | serial8250
  | virtioConsole
deriving DecidableEq, Repr

/-- `handle_sigalrm`, `kvm-run.c:51-55`. -/
def handle_sigalrm : List InjectTarget :=
  [.serial8250, .virtioConsole]

/-- One observable call made by `kvm_cmd_run` on the main thread. -/
inductive Event where
  | warnLimitCpus
  | termInit
  | kvmInit (ramBytes : Nat)
  | diskOpen
  | loadKernel (cmdline : CStr)
  | setupLegacy
  | setupBios
  | serialInit
  | pciInit
  | virtioBlkInit
  | virtioConsoleInit
  | virtioNetInit
  | startTimer
  | cpuInit (i : Nat)
  | singleStepOn (i : Nat)
  | spawnThread (i : Nat)
  | joinThread (i : Nat)
  | diskClose
  | kvmDelete
  | printNormal
deriving DecidableEq, Repr

/-- How `kvm_cmd_run` ends: each `die*` is a fatal `die(...)` call at the
named check, `ret c` is a normal return of `c` to the caller. -/
inductive Outcome where
  | dieCpusRange
  | dieMem
  | dieDiskImage
  | dieLoadKernel
  | dieCpuInit
  | dieThreadCreate
  | dieJoin
  | ret (code : Nat)
deriving DecidableEq, Repr

/-- Modelled from the spec: `die` lives in `util.c`, outside the modelled
source; per the spec, fatal errors print a descriptive message and the
process exits with a non-zero status.  `ret c` is passed through as the
command's exit code. -/
def Outcome.exitCode : Outcome → Nat
  | .ret c => c
  | _ => 1

/-- The configuration globals of `kvm-run.c` as they stand when control
reaches line 198 (after option parsing and the kernel-filename fallback,
both outside the modelled core). `nrcpus` is a C `int`. -/
structure Config where
  nrcpus : Int
  ram_size : Nat
  image_filename : Option CStr
  readonly_image : Bool
  kernel_cmdline : Option CStr
  network : Option CStr
  single_step : Bool

/-- Oracles for the external collaborators called during the run. -/
structure Env where
  diskOpenOk : Bool
  loadKernelOk : Bool
  cpuInitOk : Nat → Bool
  threadCreateOk : Nat → Bool
  joinOk : Nat → Bool
  cpuRun : Nat → CpuRun

/-- `if (!strncmp(network, "virtio", 6))`, `kvm-run.c:264` — with the
`DEFAULT_NETWORK` (`"none"`) substitution of line 261-262 for a `NULL`
network. -/
def netIsVirtio (network : Option CStr) : Bool :=
  match network with
  | none => leadsWith "virtio".data "none".data
  | some s => leadsWith "virtio".data s

/-- The vCPU creation loop, `kvm-run.c:269-279`, over the cpu indices:
`kvm_cpu__init`, optional single-step enable, `pthread_create`; a failing
call `die`s, ending the loop early. -/
def spawnCpus (ss : Bool) (env : Env) : List Nat → List Event × Option Outcome
  | [] => ([], none)
  | i :: rest =>
    if env.cpuInitOk i = false then
      ([Event.cpuInit i], some .dieCpuInit)
    else
      let pre := [Event.cpuInit i] ++ (if ss then [Event.singleStepOn i] else [])
      if env.threadCreateOk i = false then
        (pre, some .dieThreadCreate)
      else
        let es := spawnCpus ss env rest
        (pre ++ [Event.spawnThread i] ++ es.1, es.2)

/-- The join loop, `kvm-run.c:281-289`: `pthread_join` each thread in order
(dying if a join fails) and accumulate `exit_code = 1` once any thread
returned non-NULL.  The third component is the `exit_code` accumulator. -/
def joinCpus (env : Env) : List Nat → List Event × Option Outcome × Nat
  | [] => ([], none, 0)
  | i :: rest =>
    if env.joinOk i = false then
      ([], some .dieJoin, 0)
    else
      let es := joinCpus env rest
      ([Event.joinThread i] ++ es.1,
       es.2.1,
       if (kvm_cpu_thread (env.cpuRun i)).2 ≠ 0 then 1 else es.2.2)

/-- `kvm_cmd_run`, `kvm-run.c:198-297`: the trace of observable calls on the
main thread and how the command ends.  Straight-line translation: the CPU
range check, the SMP warning, the memory check, the MiB→byte shift, setup
calls in source order, the spawn loop, the join loop, teardown, and the
normal-termination notice printed only when `exit_code` stayed 0. -/
def kvm_cmd_run (cfg : Config) (env : Env) : List Event × Outcome :=
  if cfg.nrcpus < 1 ∨ KVM_NR_CPUS < cfg.nrcpus then
    ([], .dieCpusRange)
  else
    let t0 : List Event := if 1 < cfg.nrcpus then [.warnLimitCpus] else []
    if cfg.ram_size < MIN_RAM_SIZE_MB then
      (t0, .dieMem)
    else
      let ramBytes := cfg.ram_size <<< MB_SHIFT
      let t1 := t0 ++ [.termInit, .kvmInit ramBytes]
      if cfg.image_filename.isSome ∧ env.diskOpenOk = false then
        (t1 ++ [.diskOpen], .dieDiskImage)
      else
        let t2 := t1 ++ (if cfg.image_filename.isSome then [Event.diskOpen] else [])
        let t3 := t2 ++ [.loadKernel (composeCmdline cfg.kernel_cmdline)]
        if env.loadKernelOk = false then
          (t3, .dieLoadKernel)
        else
          let t4 := t3 ++ [.setupLegacy, .setupBios, .serialInit, .pciInit,
                           .virtioBlkInit, .virtioConsoleInit]
          let t5 := t4 ++ (if netIsVirtio cfg.network then [Event.virtioNetInit] else [])
          let t6 := t5 ++ [.startTimer]
          let sp := spawnCpus cfg.single_step env (List.range cfg.nrcpus.toNat)
          match sp.2 with
          | some o => (t6 ++ sp.1, o)
          | none =>
            let jn := joinCpus env (List.range cfg.nrcpus.toNat)
            match jn.2.1 with
            | some o => (t6 ++ sp.1 ++ jn.1, o)
            | none =>
              let t7 := t6 ++ sp.1 ++ jn.1 ++ [.diskClose, .kvmDelete]
              let t8 := t7 ++ (if jn.2.2 = 0 then [Event.printNormal] else [])
              (t8, .ret jn.2.2)

/-! ### Derived observation functions and trace classifiers -/

/-- The one-time setup calls of §4.1: VM/memory initialization, disk open,
kernel load, legacy I/O, BIOS, and device initializations. -/
def Event.isSetup : Event → Bool
  | .kvmInit _ | .diskOpen | .loadKernel _ | .setupLegacy | .setupBios
  | .serialInit | .pciInit | .virtioBlkInit | .virtioConsoleInit
  | .virtioNetInit => true
  | _ => false

/-- A vCPU thread spawn. -/
def Event.isSpawn : Event → Bool
  | .spawnThread _ => true
  | _ => false

/-- Events that can only come from the spawn/join/teardown phase of the run. -/
def Event.isRunPhase : Event → Bool
  | .cpuInit _ | .singleStepOn _ | .spawnThread _ | .joinThread _
  | .diskClose | .kvmDelete | .printNormal => true
  | _ => false

/-- The setup calls issued before `kvm__start_timer` on the success path. -/
def preTimer (cfg : Config) : List Event :=
  (if 1 < cfg.nrcpus then [Event.warnLimitCpus] else []) ++
  [.termInit, .kvmInit (cfg.ram_size <<< MB_SHIFT)] ++
  (if cfg.image_filename.isSome then [Event.diskOpen] else []) ++
  [.loadKernel (composeCmdline cfg.kernel_cmdline)] ++
  [.setupLegacy, .setupBios, .serialInit, .pciInit,
   .virtioBlkInit, .virtioConsoleInit] ++
  (if netIsVirtio cfg.network then [Event.virtioNetInit] else [])

/-- Everything `kvm_cmd_run` does before the vCPU loop on the success path. -/
def preSpawn (cfg : Config) : List Event :=
  preTimer cfg ++ [Event.startTimer]

/-- The events of a spawn loop in which every call succeeded. -/
def spawnList (ss : Bool) (l : List Nat) : List Event :=
  l.flatMap fun i =>
    [Event.cpuInit i] ++ (if ss then [Event.singleStepOn i] else []) ++
      [Event.spawnThread i]

/-- The `exit_code` accumulated by a join loop in which every join
succeeded. -/
def joinCode (env : Env) (l : List Nat) : Nat :=
  if l.all (fun i => (kvm_cpu_thread (env.cpuRun i)).2 = 0) then 0 else 1

/-- Calls to `disk_image__close` made by the main thread. -/
def mainDiskCloses (cfg : Config) (env : Env) : Nat :=
  (kvm_cmd_run cfg env).1.count Event.diskClose

/-- Calls to `disk_image__close` made by the vCPU threads of a run that
spawns and joins all `nrcpus` threads. -/
def threadDiskCloses (cfg : Config) (env : Env) : Nat :=
  ((List.range cfg.nrcpus.toNat).map
    fun i => (kvm_cpu_thread (env.cpuRun i)).1.count ThreadEvent.diskCloseT).sum

/-- Calls to `disk_image__close` over the whole process lifetime of a run
that spawns and joins all `nrcpus` threads. -/
def totalDiskCloses (cfg : Config) (env : Env) : Nat :=
  mainDiskCloses cfg env + threadDiskCloses cfg env

/-- Calls to `kvm__delete` over the whole process lifetime (vCPU threads
never make this call: `ThreadEvent` has no such constructor). -/
def totalKvmDeletes (cfg : Config) (env : Env) : Nat :=
  (kvm_cmd_run cfg env).1.count Event.kvmDelete

/-! ### Concrete configurations and environments used in closed theorems -/

/-- A minimal valid configuration: one CPU, the default 64 MiB memory, no
disk image, no caller command line, default network. -/
def cfgBase : Config :=
  { nrcpus := 1, ram_size := ram_size, image_filename := none,
    readonly_image := false, kernel_cmdline := none, network := none,
    single_step := false }

/-- An environment in which every external call succeeds and every vCPU
halts cleanly. -/
def envAllOk : Env :=
  { diskOpenOk := true, loadKernelOk := true, cpuInitOk := fun _ => true,
    threadCreateOk := fun _ => true, joinOk := fun _ => true,
    cpuRun := fun _ => .halted }

/-- Every external call succeeds but every vCPU ends in a fatal exit
(exit reason 8, with no hardware sub-code). -/
def envAllPanic : Env :=
  { envAllOk with cpuRun := fun _ => CpuRun.panic 8 0 }

/-- 32 MiB of memory: below the minimum. -/
def cfgMem32 : Config := { cfgBase with ram_size := 32 }

/-- 300 CPUs: outside the valid range. -/
def cfgCpus300 : Config := { cfgBase with nrcpus := 300 }

/-- Two CPUs: inside the valid range but above the single-vCPU limit. -/
def cfgCpus2 : Config := { cfgBase with nrcpus := 2 }

/-- A configuration with a disk image attached. -/
def cfgDisk : Config := { cfgBase with image_filename := some "disk.img".data }

/-- A configuration exercising every optional setup step: two CPUs, more
memory, a disk image, a caller command line, a virtio network and
single-stepping. -/
def cfgFull : Config :=
  { nrcpus := 2, ram_size := 128, image_filename := some "disk.img".data,
    readonly_image := false, kernel_cmdline := some "root=/dev/hda1".data,
    network := some "virtio".data, single_step := true }

/-! ### Library lemmas about the string model -/

theorem strlcat_of_lt (dst src : CStr) (size : Nat) (h : dst.length < size) :
    strlcat dst src size = dst ++ src.take (size - 1 - dst.length) := by
  unfold strlcat
  rw [if_neg (by omega)]

theorem strlcat_length (dst src : CStr) (size : Nat)
    (h : dst.length + 1 ≤ size) :
    (strlcat dst src size).length + 1 ≤ size := by
  unfold strlcat
  split
  · omega
  · rw [List.length_append, List.length_take]
    omega

theorem leadsWith_append (n t : CStr) : leadsWith n (n ++ t) = true := by
  induction n with
  | nil => rfl
  | cons a n ih => simp [leadsWith, ih]

theorem leadsWith_iff (n : CStr) : ∀ h : CStr, leadsWith n h = true ↔ n <+: h := by
  induction n with
  | nil =>
    intro h
    simp [leadsWith, List.nil_prefix]
  | cons a n ih =>
    intro h
    cases h with
    | nil =>
      constructor
      · intro hfalse; cases hfalse
      · intro hpre
        have := List.eq_nil_of_prefix_nil hpre
        cases this
    | cons b h =>
      simp only [leadsWith, Bool.and_eq_true, beq_iff_eq, ih, List.cons_prefix_cons]

theorem occursIn_iff (n : CStr) : ∀ h : CStr, occursIn n h = true ↔ n <:+: h := by
  intro h
  induction h with
  | nil =>
    simp [occursIn, leadsWith_iff, List.prefix_nil, List.infix_nil]
  | cons c h ih =>
    simp only [occursIn, Bool.or_eq_true, leadsWith_iff, ih, List.infix_cons_iff]

/-! ### Claim C1 / C9 theorems -/

/-- C1: the composed command line always begins with the fixed baseline
prefix; a caller line containing `root=` is passed through after that prefix
with no default root device added; a missing line, or one lacking `root=`,
gets `root=/dev/vda rw ` inserted between the prefix and the caller text;
and the result plus its NUL terminator always fits in the 2048-byte buffer,
overflow being silently truncated (the function is total, never failing). -/
theorem cmdline_composition_c1 (kc : Option CStr) :
    leadsWith baselineCmdline (composeCmdline kc) = true
    ∧ (∀ s, kc = some s → occursIn rootTok s = true →
        composeCmdline kc =
          baselineCmdline ++ s.take (cmdlineCap - 1 - baselineCmdline.length))
    ∧ composeCmdline none = baselineCmdline ++ defaultRootArgs
    ∧ (∀ s, kc = some s → occursIn rootTok s = false →
        composeCmdline kc =
          (baselineCmdline ++ defaultRootArgs) ++
            s.take (cmdlineCap - 1 - (baselineCmdline ++ defaultRootArgs).length))
    ∧ (composeCmdline kc).length + 1 ≤ cmdlineCap := by
  have hnone : composeCmdline none = baselineCmdline ++ defaultRootArgs := by decide
  have hbase : strlcat baselineCmdline defaultRootArgs cmdlineCap =
      baselineCmdline ++ defaultRootArgs := by decide
  have hblen : baselineCmdline.length < cmdlineCap := by decide
  have hdlen : (baselineCmdline ++ defaultRootArgs).length < cmdlineCap := by decide
  refine ⟨?_, ?_, hnone, ?_, ?_⟩
  · cases kc with
    | none => rw [hnone]; exact leadsWith_append _ _
    | some s =>
      by_cases hroot : occursIn rootTok s = true
      · have : composeCmdline (some s) = strlcat baselineCmdline s cmdlineCap := by
          simp [composeCmdline, hroot]
        rw [this, strlcat_of_lt _ _ _ hblen]
        exact leadsWith_append _ _
      · have : composeCmdline (some s) =
            strlcat (baselineCmdline ++ defaultRootArgs) s cmdlineCap := by
          simp [composeCmdline, hroot, hbase]
        rw [this, strlcat_of_lt _ _ _ hdlen, List.append_assoc]
        exact leadsWith_append _ _
  · intro s hs hroot
    subst hs
    have : composeCmdline (some s) = strlcat baselineCmdline s cmdlineCap := by
      simp [composeCmdline, hroot]
    rw [this, strlcat_of_lt _ _ _ hblen]
  · intro s hs hroot
    subst hs
    have : composeCmdline (some s) =
        strlcat (baselineCmdline ++ defaultRootArgs) s cmdlineCap := by
      simp [composeCmdline, hroot, hbase]
    rw [this, strlcat_of_lt _ _ _ hdlen]
  · cases kc with
    | none => rw [hnone]; decide
    | some s =>
      by_cases hroot : occursIn rootTok s = true
      · have : composeCmdline (some s) = strlcat baselineCmdline s cmdlineCap := by
          simp [composeCmdline, hroot]
        rw [this]
        exact strlcat_length _ _ _ (by decide)
      · have : composeCmdline (some s) =
            strlcat (baselineCmdline ++ defaultRootArgs) s cmdlineCap := by
          simp [composeCmdline, hroot, hbase]
        rw [this]
        exact strlcat_length _ _ _ (by decide)

/-- Closed instance of `cmdline_composition_c1` at a concrete input. -/
theorem cmdline_composition_c1_witness :
    leadsWith baselineCmdline (composeCmdline (some "root=/dev/sda1".data)) = true :=
  (cmdline_composition_c1 (some "root=/dev/sda1".data)).1

/-- C9: the root-device check is a plain substring search (`occursIn` decides
list-infix occurrence); whenever `root=` occurs anywhere in the caller line —
including inside a longer token such as `nfsroot=/path` — the default root
arguments are NOT added; they are added exactly when no line is supplied or
the substring never occurs. -/
theorem cmdline_root_substring_c9 :
    (∀ n h : CStr, occursIn n h = true ↔ n <:+: h)
    ∧ (∀ s, occursIn rootTok s = true →
        composeCmdline (some s) = strlcat baselineCmdline s cmdlineCap)
    ∧ (∀ s, occursIn rootTok s = false →
        composeCmdline (some s) =
          strlcat (baselineCmdline ++ defaultRootArgs) s cmdlineCap)
    ∧ composeCmdline none = baselineCmdline ++ defaultRootArgs
    ∧ occursIn rootTok ("nfsroot=/path".data) = true := by
  have hbase : strlcat baselineCmdline defaultRootArgs cmdlineCap =
      baselineCmdline ++ defaultRootArgs := by decide
  refine ⟨fun n h => occursIn_iff n h, ?_, ?_, by decide, by decide⟩
  · intro s hroot
    simp [composeCmdline, hroot]
  · intro s hroot
    simp [composeCmdline, hroot, hbase]

/-! ### Control-flow lemmas for `kvm_cmd_run` -/

theorem run_dieCpus (cfg : Config) (env : Env)
    (h : cfg.nrcpus < 1 ∨ KVM_NR_CPUS < cfg.nrcpus) :
    kvm_cmd_run cfg env = ([], .dieCpusRange) := by
  simp only [kvm_cmd_run, if_pos h]

theorem run_dieMem (cfg : Config) (env : Env)
    (hc : ¬(cfg.nrcpus < 1 ∨ KVM_NR_CPUS < cfg.nrcpus))
    (hm : cfg.ram_size < MIN_RAM_SIZE_MB) :
    kvm_cmd_run cfg env =
      ((if 1 < cfg.nrcpus then [Event.warnLimitCpus] else []), .dieMem) := by
  simp only [kvm_cmd_run, if_neg hc, if_pos hm]

theorem spawnCpus_ok (ss : Bool) (env : Env) (l : List Nat)
    (h : ∀ i ∈ l, env.cpuInitOk i = true ∧ env.threadCreateOk i = true) :
    spawnCpus ss env l = (spawnList ss l, none) := by
  induction l with
  | nil => rfl
  | cons i rest ih =>
    obtain ⟨h1, h2⟩ := h i (List.mem_cons_self i rest)
    have ih' := ih fun j hj => h j (List.mem_cons_of_mem i hj)
    simp [spawnCpus, h1, h2, ih', spawnList]

theorem joinCpus_ok (env : Env) (l : List Nat)
    (h : ∀ i ∈ l, env.joinOk i = true) :
    joinCpus env l = (l.map Event.joinThread, none, joinCode env l) := by
  induction l with
  | nil => rfl
  | cons i rest ih =>
    have h1 := h i (List.mem_cons_self i rest)
    have ih' := ih fun j hj => h j (List.mem_cons_of_mem i hj)
    simp only [joinCpus, h1, ih', List.map_cons, joinCode, List.all_cons,
      Bool.and_eq_true, decide_eq_true_eq]
    by_cases hz : (kvm_cpu_thread (env.cpuRun i)).2 = 0
    · simp [hz]
    · simp [hz]

theorem joinCode_eq_zero (env : Env) (l : List Nat) :
    joinCode env l = 0 ↔ ∀ i ∈ l, (kvm_cpu_thread (env.cpuRun i)).2 = 0 := by
  unfold joinCode
  split <;> rename_i hall
  · simpa [List.all_eq_true] using hall
  · simp only [List.all_eq_true, decide_eq_true_eq] at hall
    simpa using hall

theorem joinCode_cases (env : Env) (l : List Nat) :
    joinCode env l = 0 ∨ joinCode env l = 1 := by
  unfold joinCode
  split
  · exact Or.inl rfl
  · exact Or.inr rfl

/-- The success-path trace equation: when the configuration checks, disk
open, kernel load, every vCPU creation, every thread creation and every
join succeed, the run is the setup phase, the spawn loop, the join loop,
teardown, and the conditional success notice. -/
theorem kvm_cmd_run_ok (cfg : Config) (env : Env)
    (hc1 : 1 ≤ cfg.nrcpus) (hc2 : cfg.nrcpus ≤ KVM_NR_CPUS)
    (hm : MIN_RAM_SIZE_MB ≤ cfg.ram_size)
    (hd : cfg.image_filename.isSome → env.diskOpenOk = true)
    (hl : env.loadKernelOk = true)
    (hs : ∀ i < cfg.nrcpus.toNat,
      env.cpuInitOk i = true ∧ env.threadCreateOk i = true)
    (hj : ∀ i < cfg.nrcpus.toNat, env.joinOk i = true) :
    kvm_cmd_run cfg env =
      (preSpawn cfg ++ spawnList cfg.single_step (List.range cfg.nrcpus.toNat)
         ++ (List.range cfg.nrcpus.toNat).map Event.joinThread
         ++ [Event.diskClose, Event.kvmDelete]
         ++ (if joinCode env (List.range cfg.nrcpus.toNat) = 0
             then [Event.printNormal] else []),
       .ret (joinCode env (List.range cfg.nrcpus.toNat))) := by
  have hc : ¬(cfg.nrcpus < 1 ∨ KVM_NR_CPUS < cfg.nrcpus) := by
    push_neg
    exact ⟨by omega, hc2⟩
  have hm' : ¬ cfg.ram_size < MIN_RAM_SIZE_MB := by omega
  have hd' : ¬(cfg.image_filename.isSome = true ∧ env.diskOpenOk = false) := by
    rintro ⟨h1, h2⟩
    rw [hd h1] at h2
    cases h2
  have hl' : ¬ env.loadKernelOk = false := by
    rw [hl]; simp
  have hsp := spawnCpus_ok cfg.single_step env (List.range cfg.nrcpus.toNat)
    (fun i hi => hs i (List.mem_range.mp hi))
  have hjn := joinCpus_ok env (List.range cfg.nrcpus.toNat)
    (fun i hi => hj i (List.mem_range.mp hi))
  simp only [kvm_cmd_run, if_neg hc, if_neg hm', if_neg hd', if_neg hl', hsp, hjn]
  simp [preSpawn, preTimer, List.append_assoc]


theorem spawnCpus_sound (ss : Bool) (env : Env) (l : List Nat) :
    (∀ e ∈ (spawnCpus ss env l).1, e.isRunPhase = true)
    ∧ (∀ o, (spawnCpus ss env l).2 = some o →
        o = Outcome.dieCpuInit ∨ o = Outcome.dieThreadCreate) := by
  induction l with
  | nil => exact ⟨by simp [spawnCpus], by simp [spawnCpus]⟩
  | cons i rest ih =>
    by_cases h1 : env.cpuInitOk i = false
    · refine ⟨?_, ?_⟩
      · intro e he
        simp [spawnCpus, h1] at he
        subst he; rfl
      · intro o ho
        simp [spawnCpus, h1] at ho
        exact Or.inl ho.symm
    · by_cases h2 : env.threadCreateOk i = false
      · refine ⟨?_, ?_⟩
        · intro e he
          simp only [spawnCpus, if_neg h1, if_pos h2, List.mem_append,
            List.mem_ite_nil_right, List.mem_cons, List.mem_singleton,
            List.not_mem_nil, or_false] at he
          rcases he with he | ⟨-, he⟩ <;> (subst he; rfl)
        · intro o ho
          simp [spawnCpus, h1, h2] at ho
          exact Or.inr ho.symm
      · refine ⟨?_, ?_⟩
        · intro e he
          simp only [spawnCpus, if_neg h1, if_neg h2, List.mem_append,
            List.mem_ite_nil_right, List.mem_cons, List.mem_singleton,
            List.not_mem_nil, or_false] at he
          rcases he with ((he | ⟨-, he⟩) | he) | he
          · subst he; rfl
          · subst he; rfl
          · subst he; rfl
          · exact ih.1 e he
        · intro o ho
          simp only [spawnCpus, if_neg h1, if_neg h2] at ho
          exact ih.2 o ho

theorem joinCpus_sound (env : Env) (l : List Nat) :
    (∀ e ∈ (joinCpus env l).1, e.isRunPhase = true)
    ∧ (∀ o, (joinCpus env l).2.1 = some o → o = Outcome.dieJoin) := by
  induction l with
  | nil => exact ⟨by simp [joinCpus], by simp [joinCpus]⟩
  | cons i rest ih =>
    by_cases h1 : env.joinOk i = false
    · refine ⟨by simp [joinCpus, h1], ?_⟩
      intro o ho
      simp [joinCpus, h1] at ho
      exact ho.symm
    · refine ⟨?_, ?_⟩
      · intro e he
        simp only [joinCpus, if_neg h1, List.mem_append, List.mem_cons,
          List.mem_singleton, List.not_mem_nil, or_false] at he
        rcases he with he | he
        · subst he; rfl
        · exact ih.1 e he
      · intro o ho
        simp only [joinCpus, if_neg h1] at ho
        exact ih.2 o ho

theorem runPhase_not_setup (e : Event) (h : e.isRunPhase = true) :
    e.isSetup = false ∧ e ≠ Event.startTimer := by
  cases e <;> simp_all [Event.isRunPhase, Event.isSetup]

/-- Past the configuration checks, the disk open and the kernel load, the
trace is the full setup phase followed only by spawn/join/teardown events,
and the command does not die at any of the four checked setup steps. -/
theorem kvm_cmd_run_split (cfg : Config) (env : Env)
    (hc1 : 1 ≤ cfg.nrcpus) (hc2 : cfg.nrcpus ≤ KVM_NR_CPUS)
    (hm : MIN_RAM_SIZE_MB ≤ cfg.ram_size)
    (hd : cfg.image_filename.isSome → env.diskOpenOk = true)
    (hl : env.loadKernelOk = true) :
    ∃ rest : List Event,
      (kvm_cmd_run cfg env).1 = preSpawn cfg ++ rest
      ∧ (∀ e ∈ rest, e.isRunPhase = true)
      ∧ (kvm_cmd_run cfg env).2 ≠ .dieCpusRange
      ∧ (kvm_cmd_run cfg env).2 ≠ .dieMem
      ∧ (kvm_cmd_run cfg env).2 ≠ .dieDiskImage
      ∧ (kvm_cmd_run cfg env).2 ≠ .dieLoadKernel := by
  have hc : ¬(cfg.nrcpus < 1 ∨ KVM_NR_CPUS < cfg.nrcpus) := by
    push_neg
    exact ⟨hc1, hc2⟩
  have hm' : ¬ cfg.ram_size < MIN_RAM_SIZE_MB := not_lt.mpr hm
  have hd' : ¬(cfg.image_filename.isSome = true ∧ env.diskOpenOk = false) := by
    rintro ⟨h1, h2⟩
    rw [hd h1] at h2
    cases h2
  have hl' : ¬ env.loadKernelOk = false := by rw [hl]; simp
  have hsp := spawnCpus_sound cfg.single_step env (List.range cfg.nrcpus.toNat)
  have hjn := joinCpus_sound env (List.range cfg.nrcpus.toNat)
  cases hsr : (spawnCpus cfg.single_step env (List.range cfg.nrcpus.toNat)).2 with
  | some o =>
    refine ⟨(spawnCpus cfg.single_step env (List.range cfg.nrcpus.toNat)).1,
      ?_, hsp.1, ?_⟩
    · simp only [kvm_cmd_run, if_neg hc, if_neg hm', if_neg hd', if_neg hl', hsr]
      simp [preSpawn, preTimer, List.append_assoc]
    · have := hsp.2 o hsr
      simp only [kvm_cmd_run, if_neg hc, if_neg hm', if_neg hd', if_neg hl', hsr]
      rcases this with h | h <;> (subst h; exact ⟨by simp, by simp, by simp, by simp⟩)
  | none =>
    cases hjr : (joinCpus env (List.range cfg.nrcpus.toNat)).2.1 with
    | some o =>
      refine ⟨(spawnCpus cfg.single_step env (List.range cfg.nrcpus.toNat)).1 ++
        (joinCpus env (List.range cfg.nrcpus.toNat)).1, ?_, ?_, ?_⟩
      · simp only [kvm_cmd_run, if_neg hc, if_neg hm', if_neg hd', if_neg hl', hsr, hjr]
        simp [preSpawn, preTimer, List.append_assoc]
      · intro e he
        rcases List.mem_append.mp he with h | h
        · exact hsp.1 e h
        · exact hjn.1 e h
      · have := hjn.2 o hjr
        subst this
        simp only [kvm_cmd_run, if_neg hc, if_neg hm', if_neg hd', if_neg hl', hsr, hjr]
        exact ⟨by simp, by simp, by simp, by simp⟩
    | none =>
      refine ⟨(spawnCpus cfg.single_step env (List.range cfg.nrcpus.toNat)).1 ++
        (joinCpus env (List.range cfg.nrcpus.toNat)).1 ++
        [Event.diskClose, Event.kvmDelete] ++
        (if (joinCpus env (List.range cfg.nrcpus.toNat)).2.2 = 0
         then [Event.printNormal] else []), ?_, ?_, ?_⟩
      · simp only [kvm_cmd_run, if_neg hc, if_neg hm', if_neg hd', if_neg hl', hsr, hjr]
        simp [preSpawn, preTimer, List.append_assoc]
      · intro e he
        simp only [List.mem_append, List.mem_ite_nil_right, List.mem_cons,
          List.mem_singleton, List.not_mem_nil, or_false] at he
        rcases he with ((h | h) | h | h) | ⟨-, h⟩
        · exact hsp.1 e h
        · exact hjn.1 e h
        · subst h; rfl
        · subst h; rfl
        · subst h; rfl
      · simp only [kvm_cmd_run, if_neg hc, if_neg hm', if_neg hd', if_neg hl', hsr, hjr]
        exact ⟨by simp, by simp, by simp, by simp⟩

theorem preTimer_subset (cfg : Config) :
    preTimer cfg ⊆
      [Event.warnLimitCpus, Event.termInit,
       Event.kvmInit (cfg.ram_size <<< MB_SHIFT), Event.diskOpen,
       Event.loadKernel (composeCmdline cfg.kernel_cmdline),
       Event.setupLegacy, Event.setupBios, Event.serialInit, Event.pciInit,
       Event.virtioBlkInit, Event.virtioConsoleInit, Event.virtioNetInit] := by
  intro e he
  simp only [preTimer, List.mem_append, List.mem_ite_nil_right, List.mem_cons,
    List.mem_singleton, List.not_mem_nil, or_false] at he
  simp only [List.mem_cons, List.mem_singleton, List.not_mem_nil, or_false]
  tauto

theorem preSpawn_no_spawn (cfg : Config) : ∀ e ∈ preSpawn cfg, e.isSpawn = false := by
  intro e he
  rcases List.mem_append.mp he with h | h
  · have h' := preTimer_subset cfg h
    simp only [List.mem_cons, List.mem_singleton, List.not_mem_nil, or_false] at h'
    rcases h' with rfl|rfl|rfl|rfl|rfl|rfl|rfl|rfl|rfl|rfl|rfl|rfl <;> rfl
  · have h' : e = Event.startTimer := by simpa using h
    subst h'; rfl

theorem preTimer_no_startTimer (cfg : Config) : Event.startTimer ∉ preTimer cfg := by
  intro h
  have h' := preTimer_subset cfg h
  simp at h'

theorem printNormal_not_preSpawn (cfg : Config) : Event.printNormal ∉ preSpawn cfg := by
  intro h
  rcases List.mem_append.mp h with h | h
  · have h' := preTimer_subset cfg h
    simp at h'
  · simp at h

theorem diskClose_not_preSpawn (cfg : Config) : Event.diskClose ∉ preSpawn cfg := by
  intro h
  rcases List.mem_append.mp h with h | h
  · have h' := preTimer_subset cfg h
    simp at h'
  · simp at h

theorem kvmDelete_not_preSpawn (cfg : Config) : Event.kvmDelete ∉ preSpawn cfg := by
  intro h
  rcases List.mem_append.mp h with h | h
  · have h' := preTimer_subset cfg h
    simp at h'
  · simp at h

theorem kvmInit_mem_preSpawn (cfg : Config) :
    Event.kvmInit (cfg.ram_size <<< MB_SHIFT) ∈ preSpawn cfg := by
  simp [preSpawn, preTimer]

theorem serialInit_mem_preTimer (cfg : Config) : Event.serialInit ∈ preTimer cfg := by
  simp [preTimer]

theorem virtioConsoleInit_mem_preTimer (cfg : Config) :
    Event.virtioConsoleInit ∈ preTimer cfg := by
  simp [preTimer]

/-! ### Claims about configuration validation (C3, C7, C10) -/

/-- C3: for every memory size strictly below the 64 MiB minimum (with a CPU
count in range, since that check comes first), the run dies with the
minimum-memory diagnostic before `kvm__init` is called, before the disk
image is opened and before any vCPU is created, and the process exit
status is non-zero. -/
theorem min_memory_check_c3 (cfg : Config) (env : Env)
    (hc1 : 1 ≤ cfg.nrcpus) (hc2 : cfg.nrcpus ≤ KVM_NR_CPUS)
    (hm : cfg.ram_size < MIN_RAM_SIZE_MB) :
    (kvm_cmd_run cfg env).2 = .dieMem
    ∧ (∀ b, Event.kvmInit b ∉ (kvm_cmd_run cfg env).1)
    ∧ Event.diskOpen ∉ (kvm_cmd_run cfg env).1
    ∧ (∀ i, Event.cpuInit i ∉ (kvm_cmd_run cfg env).1)
    ∧ (∀ i, Event.spawnThread i ∉ (kvm_cmd_run cfg env).1)
    ∧ Outcome.exitCode (kvm_cmd_run cfg env).2 ≠ 0 := by
  have hc : ¬(cfg.nrcpus < 1 ∨ KVM_NR_CPUS < cfg.nrcpus) := by
    push_neg
    exact ⟨hc1, hc2⟩
  have heq := run_dieMem cfg env hc hm
  rw [heq]
  by_cases hw : 1 < cfg.nrcpus <;> simp [hw, Outcome.exitCode]

/-- Closed instance of `min_memory_check_c3` at 32 MiB (end-to-end
scenario A of the spec). -/
theorem min_memory_check_c3_witness :
    (kvm_cmd_run cfgMem32 envAllOk).2 = .dieMem ∧
      Outcome.exitCode (kvm_cmd_run cfgMem32 envAllOk).2 ≠ 0 :=
  ⟨(min_memory_check_c3 cfgMem32 envAllOk (by decide) (by decide) (by decide)).1,
   (min_memory_check_c3 cfgMem32 envAllOk (by decide) (by decide)
     (by decide)).2.2.2.2.2⟩

/-- C7: for every CPU count outside [1, 255], the run dies immediately with
the range diagnostic: the trace is empty, so no VM construction step — in
particular no `kvm__init` call and no vCPU creation — has happened, and the
exit status is non-zero. -/
theorem cpu_range_check_c7 (cfg : Config) (env : Env)
    (h : cfg.nrcpus < 1 ∨ KVM_NR_CPUS < cfg.nrcpus) :
    kvm_cmd_run cfg env = ([], .dieCpusRange)
    ∧ (∀ b, Event.kvmInit b ∉ (kvm_cmd_run cfg env).1)
    ∧ (∀ i, Event.cpuInit i ∉ (kvm_cmd_run cfg env).1)
    ∧ Outcome.exitCode (kvm_cmd_run cfg env).2 ≠ 0 := by
  have heq := run_dieCpus cfg env h
  rw [heq]
  simp [Outcome.exitCode]

/-- Closed instance of `cpu_range_check_c7` at 300 CPUs. -/
theorem cpu_range_check_c7_witness :
    kvm_cmd_run cfgCpus300 envAllOk = ([], .dieCpusRange) :=
  (cpu_range_check_c7 cfgCpus300 envAllOk (by decide)).1

/-- C10: when the memory size keeps the initializer value of the `ram_size`
global (64 MiB, used when `--mem` is absent), the minimum-memory check
passes with equality and `kvm__init` is called with a 64 MiB
(`64 * 2 ^ 20`-byte) guest address space. -/
theorem default_ram_c10 (cfg : Config) (env : Env)
    (hram : cfg.ram_size = ram_size)
    (hc1 : 1 ≤ cfg.nrcpus) (hc2 : cfg.nrcpus ≤ KVM_NR_CPUS)
    (hd : cfg.image_filename.isSome → env.diskOpenOk = true)
    (hl : env.loadKernelOk = true) :
    cfg.ram_size = MIN_RAM_SIZE_MB
    ∧ ¬ cfg.ram_size < MIN_RAM_SIZE_MB
    ∧ (kvm_cmd_run cfg env).2 ≠ .dieMem
    ∧ Event.kvmInit MIN_RAM_SIZE_BYTE ∈ (kvm_cmd_run cfg env).1
    ∧ MIN_RAM_SIZE_BYTE = 64 * 2 ^ 20 := by
  have hmeq : cfg.ram_size = MIN_RAM_SIZE_MB := hram
  have hm : MIN_RAM_SIZE_MB ≤ cfg.ram_size := le_of_eq hmeq.symm
  obtain ⟨rest, htr, -, -, hnm, -, -⟩ := kvm_cmd_run_split cfg env hc1 hc2 hm hd hl
  refine ⟨hmeq, not_lt.mpr hm, hnm, ?_, by decide⟩
  rw [htr]
  have hev : Event.kvmInit MIN_RAM_SIZE_BYTE =
      Event.kvmInit (cfg.ram_size <<< MB_SHIFT) := by
    rw [hmeq]
    rfl
  rw [hev]
  exact List.mem_append_left _ (kvmInit_mem_preSpawn cfg)

/-- Closed instance of `default_ram_c10` at the default configuration. -/
theorem default_ram_c10_witness :
    Event.kvmInit MIN_RAM_SIZE_BYTE ∈ (kvm_cmd_run cfgBase envAllOk).1 :=
  (default_ram_c10 cfgBase envAllOk rfl (by decide) (by decide)
    (fun _ => rfl) rfl).2.2.2.1

/-! ### Claim C4: the code runs the requested number of vCPUs -/

/-- C4 (code evaluation at the failing input): with `--cpus 2` the run
prints the limiting warning but then creates and spawns TWO vCPU threads
(`kvm_cpu__init 1` and a second `pthread_create` both happen) and joins
both, contradicting the claimed (and warned) degradation to one functional
vCPU: the loop bound at `kvm-run.c:269` is `nrcpus`, which is never reset
to 1 after the warning. -/
theorem smp_limit_c4_evaluation :
    Event.warnLimitCpus ∈ (kvm_cmd_run cfgCpus2 envAllOk).1
    ∧ Event.cpuInit 1 ∈ (kvm_cmd_run cfgCpus2 envAllOk).1
    ∧ Event.spawnThread 0 ∈ (kvm_cmd_run cfgCpus2 envAllOk).1
    ∧ Event.spawnThread 1 ∈ (kvm_cmd_run cfgCpus2 envAllOk).1
    ∧ Event.joinThread 0 ∈ (kvm_cmd_run cfgCpus2 envAllOk).1
    ∧ Event.joinThread 1 ∈ (kvm_cmd_run cfgCpus2 envAllOk).1
    ∧ (kvm_cmd_run cfgCpus2 envAllOk).2 = Outcome.ret 0 := by
  decide

/-! ### Claim C6: the panic-path diagnostic sequence -/

/-- C6: on a fatal vCPU exit the failing thread returns the failure value 1
and performs, in order and before destroying its vCPU descriptor (the
descriptor delete is the last call): print the exit reason, print the
hardware sub-code exactly when the exit reason is `KVM_EXIT_UNKNOWN`, close
the disk image, dump registers, dump code, dump page tables. -/
theorem panic_diagnostics_c6 (reason hw : Nat) :
    (kvm_cpu_thread (CpuRun.panic reason hw)).2 = 1
    ∧ (ThreadEvent.printHwCode hw ∈ (kvm_cpu_thread (CpuRun.panic reason hw)).1 ↔
        reason = KVM_EXIT_UNKNOWN)
    ∧ (kvm_cpu_thread (CpuRun.panic reason hw)).1 =
        [ThreadEvent.printExitReason reason] ++
          (if reason = KVM_EXIT_UNKNOWN then [ThreadEvent.printHwCode hw] else []) ++
          [ThreadEvent.diskCloseT, ThreadEvent.showRegisters,
           ThreadEvent.showCode, ThreadEvent.showPageTables] ++
          [ThreadEvent.cpuDelete]
    ∧ ((kvm_cpu_thread (CpuRun.panic reason hw)).1).getLast? =
        some ThreadEvent.cpuDelete := by
  by_cases h : reason = KVM_EXIT_UNKNOWN <;>
    refine ⟨rfl, ?_, ?_, ?_⟩ <;> simp [kvm_cpu_thread, h]

/-! ### Helper lemmas about the spawn/join segments -/

theorem mem_spawnList {e : Event} {ss : Bool} {l : List Nat}
    (h : e ∈ spawnList ss l) :
    ∃ i ∈ l, e = Event.cpuInit i ∨ e = Event.singleStepOn i ∨
      e = Event.spawnThread i := by
  simp only [spawnList, List.mem_flatMap, List.mem_append, List.mem_ite_nil_right,
    List.mem_cons, List.mem_singleton, List.not_mem_nil, or_false] at h
  obtain ⟨i, hi, hc⟩ := h
  refine ⟨i, hi, ?_⟩
  tauto

theorem not_mem_spawnList (e : Event) (ss : Bool) (l : List Nat)
    (h : ∀ i, e ≠ Event.cpuInit i ∧ e ≠ Event.singleStepOn i ∧
      e ≠ Event.spawnThread i) :
    e ∉ spawnList ss l := by
  intro hm
  obtain ⟨i, -, hc⟩ := mem_spawnList hm
  rcases hc with hc | hc | hc
  exacts [(h i).1 hc, (h i).2.1 hc, (h i).2.2 hc]

theorem not_mem_map_joinThread (e : Event)
    (h : ∀ i, e ≠ Event.joinThread i) (l : List Nat) :
    e ∉ l.map Event.joinThread := by
  intro hm
  obtain ⟨i, -, hi⟩ := List.mem_map.mp hm
  exact h i hi.symm

theorem count_diskCloseT_thread (r : CpuRun) :
    (kvm_cpu_thread r).1.count ThreadEvent.diskCloseT =
      if r != CpuRun.halted then 1 else 0 := by
  cases r with
  | halted => rfl
  | panic reason hw =>
    by_cases h : reason = KVM_EXIT_UNKNOWN
    · subst h
      rfl
    · rw [kvm_cpu_thread, if_neg h]
      rfl

theorem sum_map_count_eq_countP (g : Nat → Bool) (l : List Nat) :
    (l.map fun i => if g i then 1 else 0).sum = l.countP g := by
  induction l with
  | nil => rfl
  | cons i rest ih =>
    by_cases h : g i = true <;>
      simp [h, List.countP_cons, ih, Nat.add_comm]

/-! ### Claim C5: unconditional joins and exit-code aggregation -/

/-- C5: on a run in which all external calls succeed, the orchestrator joins
every spawned vCPU thread; the command returns 0 exactly when every vCPU
thread returned success, returns 1 exactly when some vCPU thread returned
failure, and the normal-termination notice is printed exactly in the
all-success case. -/
theorem exit_aggregation_c5 (cfg : Config) (env : Env)
    (hc1 : 1 ≤ cfg.nrcpus) (hc2 : cfg.nrcpus ≤ KVM_NR_CPUS)
    (hm : MIN_RAM_SIZE_MB ≤ cfg.ram_size)
    (hd : cfg.image_filename.isSome → env.diskOpenOk = true)
    (hl : env.loadKernelOk = true)
    (hs : ∀ i < cfg.nrcpus.toNat,
      env.cpuInitOk i = true ∧ env.threadCreateOk i = true)
    (hj : ∀ i < cfg.nrcpus.toNat, env.joinOk i = true) :
    (∀ i < cfg.nrcpus.toNat, Event.joinThread i ∈ (kvm_cmd_run cfg env).1)
    ∧ ((kvm_cmd_run cfg env).2 = Outcome.ret 0 ↔
        ∀ i < cfg.nrcpus.toNat, (kvm_cpu_thread (env.cpuRun i)).2 = 0)
    ∧ ((kvm_cmd_run cfg env).2 = Outcome.ret 1 ↔
        ∃ i < cfg.nrcpus.toNat, (kvm_cpu_thread (env.cpuRun i)).2 ≠ 0)
    ∧ (Event.printNormal ∈ (kvm_cmd_run cfg env).1 ↔
        (kvm_cmd_run cfg env).2 = Outcome.ret 0) := by
  have heq := kvm_cmd_run_ok cfg env hc1 hc2 hm hd hl hs hj
  have hzero : joinCode env (List.range cfg.nrcpus.toNat) = 0 ↔
      ∀ i < cfg.nrcpus.toNat, (kvm_cpu_thread (env.cpuRun i)).2 = 0 := by
    rw [joinCode_eq_zero]
    exact ⟨fun h i hi => h i (List.mem_range.mpr hi),
      fun h i hi => h i (List.mem_range.mp hi)⟩
  have h01 := joinCode_cases env (List.range cfg.nrcpus.toNat)
  refine ⟨?_, ?_, ?_, ?_⟩
  · intro i hi
    rw [heq]
    simp only [List.mem_append]
    exact Or.inl (Or.inl (Or.inr
      (List.mem_map_of_mem _ (List.mem_range.mpr hi))))
  · rw [heq]
    simp only [Outcome.ret.injEq]
    exact hzero
  · rw [heq]
    simp only [Outcome.ret.injEq]
    have hone : joinCode env (List.range cfg.nrcpus.toNat) = 1 ↔
        ¬ joinCode env (List.range cfg.nrcpus.toNat) = 0 := by
      rcases h01 with h | h <;> simp [h]
    rw [hone, hzero]
    push_neg
    rfl
  · rw [heq]
    by_cases hc0 : joinCode env (List.range cfg.nrcpus.toNat) = 0
    · simp [hc0]
    · have hn1 : Event.printNormal ∉ preSpawn cfg := printNormal_not_preSpawn cfg
      have hn2 : Event.printNormal ∉
          spawnList cfg.single_step (List.range cfg.nrcpus.toNat) :=
        not_mem_spawnList _ _ _
          (fun i => ⟨fun h => Event.noConfusion h, fun h => Event.noConfusion h,
            fun h => Event.noConfusion h⟩)
      have hn3 : Event.printNormal ∉
          (List.range cfg.nrcpus.toNat).map Event.joinThread :=
        not_mem_map_joinThread _ (fun i h => Event.noConfusion h) _
      simp [hc0, hn1, hn2, hn3]

/-- Closed instance of `exit_aggregation_c5`: two failing vCPUs, the notice
is not printed and the exit code is not 0. -/
theorem exit_aggregation_c5_witness :
    Event.printNormal ∈ (kvm_cmd_run cfgCpus2 envAllPanic).1 ↔
      (kvm_cmd_run cfgCpus2 envAllPanic).2 = Outcome.ret 0 :=
  (exit_aggregation_c5 cfgCpus2 envAllPanic (by decide) (by decide) (by decide)
    (fun _ => rfl) rfl (fun _ _ => ⟨rfl, rfl⟩) (fun _ _ => rfl)).2.2.2

/-! ### Claim C8: setup ordering -/

/-- C8: on any run that gets past the fallible setup steps, the whole trace
splits into a prefix holding every one-time setup call (VM/memory init,
disk open when an image is given, kernel load, legacy I/O, BIOS, and every
device init) with no thread spawn in it, followed by a remainder with no
setup call in it; the timer is armed exactly once, after the serial and
virtio-console inits; and the timer tick targets exactly those two
devices. -/
theorem setup_ordering_c8 (cfg : Config) (env : Env)
    (hc1 : 1 ≤ cfg.nrcpus) (hc2 : cfg.nrcpus ≤ KVM_NR_CPUS)
    (hm : MIN_RAM_SIZE_MB ≤ cfg.ram_size)
    (hd : cfg.image_filename.isSome → env.diskOpenOk = true)
    (hl : env.loadKernelOk = true) :
    (∃ pre rest, (kvm_cmd_run cfg env).1 = pre ++ rest
      ∧ (∀ e ∈ pre, e.isSpawn = false)
      ∧ (∀ e ∈ rest, e.isSetup = false)
      ∧ Event.kvmInit (cfg.ram_size <<< MB_SHIFT) ∈ pre
      ∧ (cfg.image_filename.isSome → Event.diskOpen ∈ pre)
      ∧ Event.loadKernel (composeCmdline cfg.kernel_cmdline) ∈ pre
      ∧ Event.setupLegacy ∈ pre ∧ Event.setupBios ∈ pre
      ∧ Event.serialInit ∈ pre ∧ Event.pciInit ∈ pre
      ∧ Event.virtioBlkInit ∈ pre ∧ Event.virtioConsoleInit ∈ pre
      ∧ (netIsVirtio cfg.network = true → Event.virtioNetInit ∈ pre))
    ∧ (∃ pre2 rest2,
        (kvm_cmd_run cfg env).1 = pre2 ++ Event.startTimer :: rest2
        ∧ Event.startTimer ∉ pre2 ∧ Event.startTimer ∉ rest2
        ∧ Event.serialInit ∈ pre2 ∧ Event.virtioConsoleInit ∈ pre2)
    ∧ handle_sigalrm = [InjectTarget.serial8250, InjectTarget.virtioConsole] := by
  obtain ⟨rest, htr, hrest, -, -, -, -⟩ :=
    kvm_cmd_run_split cfg env hc1 hc2 hm hd hl
  refine ⟨⟨preSpawn cfg, rest, htr, preSpawn_no_spawn cfg,
      fun e he => (runPhase_not_setup e (hrest e he)).1,
      kvmInit_mem_preSpawn cfg, ?_, ?_, ?_, ?_, ?_, ?_, ?_, ?_, ?_⟩,
    ⟨preTimer cfg, rest, ?_, preTimer_no_startTimer cfg,
      fun h => (runPhase_not_setup _ (hrest _ h)).2 rfl,
      serialInit_mem_preTimer cfg, virtioConsoleInit_mem_preTimer cfg⟩, rfl⟩
  · intro h
    simp [preSpawn, preTimer, h]
  · simp [preSpawn, preTimer]
  · simp [preSpawn, preTimer]
  · simp [preSpawn, preTimer]
  · simp [preSpawn, preTimer]
  · simp [preSpawn, preTimer]
  · simp [preSpawn, preTimer]
  · simp [preSpawn, preTimer]
  · intro h
    simp [preSpawn, preTimer, h]
  · rw [htr]
    simp [preSpawn, List.append_assoc]

/-- Closed instance of `setup_ordering_c8` at a configuration exercising
every optional setup step. -/
theorem setup_ordering_c8_witness :
    handle_sigalrm = [InjectTarget.serial8250, InjectTarget.virtioConsole] :=
  (setup_ordering_c8 cfgFull envAllOk (by decide) (by decide) (by decide)
    (fun _ => rfl) rfl).2.2

/-! ### Claim C2: teardown release counts -/

/-- C2 counterexample to "the Disk Image is closed exactly once ...
regardless of whether the threads terminated via clean halt or via a FAILED
(panic) exit": with a disk image attached and the single vCPU ending in a
fatal exit, the process closes the disk image twice — once on the failing
thread's panic path (`kvm-run.c:129`) and once at main teardown
(`kvm-run.c:291`) — while still terminating through the normal join path
with exit code 1. -/
theorem teardown_once_c2_counterexample :
    (kvm_cmd_run cfgDisk envAllPanic).2 = Outcome.ret 1
    ∧ totalDiskCloses cfgDisk envAllPanic = 2 := by
  decide

/-- C2 amended: after all vCPU threads have terminated, the virtualization
handle is released exactly once; the Disk Image close is invoked exactly
once when every vCPU halted cleanly, and `1 + k` times when `k` vCPUs ended
in a fatal exit, since each failing thread also closes the Disk Image on
its panic path before the main thread's single teardown close. -/
theorem teardown_counts_amended_c2 (cfg : Config) (env : Env)
    (hc1 : 1 ≤ cfg.nrcpus) (hc2 : cfg.nrcpus ≤ KVM_NR_CPUS)
    (hm : MIN_RAM_SIZE_MB ≤ cfg.ram_size)
    (hd : cfg.image_filename.isSome → env.diskOpenOk = true)
    (hl : env.loadKernelOk = true)
    (hs : ∀ i < cfg.nrcpus.toNat,
      env.cpuInitOk i = true ∧ env.threadCreateOk i = true)
    (hj : ∀ i < cfg.nrcpus.toNat, env.joinOk i = true) :
    totalKvmDeletes cfg env = 1
    ∧ totalDiskCloses cfg env =
        1 + (List.range cfg.nrcpus.toNat).countP
              (fun i => env.cpuRun i != CpuRun.halted) := by
  have heq := kvm_cmd_run_ok cfg env hc1 hc2 hm hd hl hs hj
  have hmain : ∀ a : Event, a ∉ preSpawn cfg →
      a ∉ spawnList cfg.single_step (List.range cfg.nrcpus.toNat) →
      (∀ i, a ≠ Event.joinThread i) → a ≠ Event.printNormal →
      (kvm_cmd_run cfg env).1.count a =
        [Event.diskClose, Event.kvmDelete].count a := by
    intro a h1 h2 h3 h4
    rw [heq]
    simp only [List.count_append]
    rw [List.count_eq_zero.mpr h1, List.count_eq_zero.mpr h2,
      List.count_eq_zero.mpr (not_mem_map_joinThread a h3 _)]
    have h5 : (if joinCode env (List.range cfg.nrcpus.toNat) = 0
        then [Event.printNormal] else []).count a = 0 := by
      split
      · refine List.count_eq_zero.mpr ?_
        intro hm'
        rcases List.mem_singleton.mp hm' with h
        exact h4 h
      · rfl
    rw [h5]
    omega
  constructor
  · have h := hmain Event.kvmDelete (kvmDelete_not_preSpawn cfg)
      (not_mem_spawnList _ _ _
        (fun i => ⟨fun h => Event.noConfusion h, fun h => Event.noConfusion h,
          fun h => Event.noConfusion h⟩))
      (fun i h => Event.noConfusion h) (fun h => Event.noConfusion h)
    unfold totalKvmDeletes
    rw [h]
    decide
  · have h1 := hmain Event.diskClose (diskClose_not_preSpawn cfg)
      (not_mem_spawnList _ _ _
        (fun i => ⟨fun h => Event.noConfusion h, fun h => Event.noConfusion h,
          fun h => Event.noConfusion h⟩))
      (fun i h => Event.noConfusion h) (fun h => Event.noConfusion h)
    unfold totalDiskCloses mainDiskCloses threadDiskCloses
    rw [h1]
    have h2 : ∀ i : Nat, (kvm_cpu_thread (env.cpuRun i)).1.count
        ThreadEvent.diskCloseT =
        if env.cpuRun i != CpuRun.halted then 1 else 0 :=
      fun i => count_diskCloseT_thread (env.cpuRun i)
    simp only [h2]
    rw [sum_map_count_eq_countP]
    have h3 : [Event.diskClose, Event.kvmDelete].count Event.diskClose = 1 := by
      decide
    rw [h3]

/-- Closed instance of `teardown_counts_amended_c2`: disk image attached,
one vCPU halting cleanly — one handle release and one disk close. -/
theorem teardown_counts_amended_c2_witness :
    totalKvmDeletes cfgDisk envAllOk = 1
    ∧ totalDiskCloses cfgDisk envAllOk =
        1 + (List.range cfgDisk.nrcpus.toNat).countP
              (fun i => envAllOk.cpuRun i != CpuRun.halted) :=
  teardown_counts_amended_c2 cfgDisk envAllOk (by decide) (by decide) (by decide)
    (fun _ => rfl) rfl (fun _ _ => ⟨rfl, rfl⟩) (fun _ _ => rfl)

end KvmRun
